import Mathlib

/-!
Verification of the Secure CI/CD Pipeline Guardian repository against its
natural-language specification.

The repository's only executable source under src/ is `src/src/index.ts`
(the `PipelineGuardian` class); the scanner core the specification
describes (decision engine, secret detector, dependency checker,
Dockerfile rule engine, scan orchestrator) is documented but not shipped,
so those components are modelled from the specification's words, as each
definition's doc comment records.
-/

namespace Guardian

/-- Severity levels of a finding (spec data model §3). -/
inductive Severity
  | CRITICAL
  | HIGH
  | MEDIUM
  | LOW
deriving DecidableEq, Repr

/-- Gate decision status (spec data model §3). -/
inductive Status
  | PASS
  | FAIL
deriving DecidableEq, Repr

/-- The content of a FAIL reason (§4.5): the triggering severity together
with its observed count and configured threshold. -/
structure FailReason where
  severity : Severity
  count : Nat
  threshold : Nat
deriving DecidableEq, Repr

/-- Policy (§3): per-severity thresholds as a partial map, and the ordered
evaluation sequence of severities. -/
structure Policy where
  thresholds : Severity → Option Nat
  evaluationOrder : List Severity

/-- Fatal decision-time misconfiguration (§7): a severity of the evaluation
order has no configured threshold. -/
inductive PolicyConfigError
  | missingThreshold (s : Severity)
deriving DecidableEq, Repr

/-- Modelled from the spec: the first-match-wins walk of the Decision Engine
(§4.5) — the repository ships no `decision_engine.py` under src/, only its
documentation. Walks the severities in order; the first whose count is ≥ its
configured threshold yields the FAIL reason. A severity with no threshold is
skipped here; `decide` validates coverage before this walk is reached. -/
def firstTriggered (counts : Severity → Nat) (thresholds : Severity → Option Nat) :
    List Severity → Option FailReason
  | [] => none
  | s :: rest =>
    match thresholds s with
    | none => firstTriggered counts thresholds rest
    | some t =>
      if t ≤ counts s then some ⟨s, counts s, t⟩
      else firstTriggered counts thresholds rest

/-- Modelled from the spec: `decide(counts, policy)` of the Decision Engine
(§4.5, §7) — the repository ships no `decision_engine.py` under src/. It
first fails closed with a `PolicyConfigError` when `policy.thresholds` lacks
an entry for any severity present in `evaluationOrder`; otherwise it
evaluates severities strictly in `policy.evaluationOrder`, the first severity
whose count is ≥ its threshold triggering FAIL with a reason naming that
severity, its count and its threshold, and PASS when none triggers. -/
def decide (counts : Severity → Nat) (policy : Policy) :
    Except PolicyConfigError (Status × Option FailReason) :=
  match policy.evaluationOrder.find? (fun s => (policy.thresholds s).isNone) with
  | some s => .error (.missingThreshold s)
  | none =>
    match firstTriggered counts policy.thresholds policy.evaluationOrder with
    | some r => .ok (.FAIL, some r)
    | none => .ok (.PASS, none)

/-- The canonical evaluation order named by §4.5. -/
def canonicalOrder : List Severity :=
  [.CRITICAL, .HIGH, .MEDIUM, .LOW]

/-- The spec's default policy (§8, scenarios D and E): thresholds
CRITICAL 1 and HIGH 3, canonical order restricted to the gated severities. -/
def defaultPolicy : Policy where
  thresholds := fun s =>
    match s with
    | .CRITICAL => some 1
    | .HIGH => some 3
    | .MEDIUM => none
    | .LOW => none
  evaluationOrder := [.CRITICAL, .HIGH]

/-- If every severity of the order has a threshold, the coverage scan of
`decide` finds nothing missing. -/
theorem find_none_of_covered (thresholds : Severity → Option Nat)
    (l : List Severity) (hcov : ∀ s ∈ l, (thresholds s).isSome) :
    l.find? (fun s => (thresholds s).isNone) = none := by
  rw [List.find?_eq_none]
  intro s hs
  have := hcov s hs
  simp [Option.isNone_iff_eq_none]
  exact Option.isSome_iff_ne_none.mp this

/-- `firstTriggered` finds nothing when every evaluated severity's count is
below its threshold. -/
theorem firstTriggered_eq_none (counts : Severity → Nat)
    (thresholds : Severity → Option Nat) (l : List Severity)
    (hbelow : ∀ s ∈ l, ∀ t, thresholds s = some t → counts s < t) :
    firstTriggered counts thresholds l = none := by
  induction l with
  | nil => rfl
  | cons s rest ih =>
    have hrest : ∀ s' ∈ rest, ∀ t, thresholds s' = some t → counts s' < t :=
      fun s' hs' => hbelow s' (List.mem_cons_of_mem _ hs')
    cases hth : thresholds s with
    | none => simp [firstTriggered, hth, ih hrest]
    | some t =>
      have hlt := hbelow s (List.mem_cons_self s rest) t hth
      simp [firstTriggered, hth, Nat.not_le.mpr hlt, ih hrest]

/-- `firstTriggered` reads the counts only at the severities of the list. -/
theorem firstTriggered_congr (c₁ c₂ : Severity → Nat)
    (thresholds : Severity → Option Nat) (l : List Severity)
    (hc : ∀ s ∈ l, c₁ s = c₂ s) :
    firstTriggered c₁ thresholds l = firstTriggered c₂ thresholds l := by
  induction l with
  | nil => rfl
  | cons s rest ih =>
    have hrest : ∀ s' ∈ rest, c₁ s' = c₂ s' :=
      fun s' hs' => hc s' (List.mem_cons_of_mem _ hs')
    have hs := hc s (List.mem_cons_self s rest)
    cases hth : thresholds s with
    | none => simp [firstTriggered, hth, ih hrest]
    | some t => simp [firstTriggered, hth, hs, ih hrest]

/-- Counts used by the C1 counterexample: 5 CRITICAL and 3 HIGH findings. -/
def c1Counts : Severity → Nat := fun s =>
  match s with
  | .CRITICAL => 5
  | .HIGH => 3
  | _ => 0

/-- A policy whose evaluation order puts HIGH before CRITICAL. -/
def c1PolicyHighFirst : Policy where
  thresholds := fun s =>
    match s with
    | .CRITICAL => some 1
    | .HIGH => some 3
    | _ => some 10
  evaluationOrder := [.HIGH, .CRITICAL]

/-- A policy that gates CRITICAL first but configures no HIGH threshold. -/
def c1PolicyUncovered : Policy where
  thresholds := fun s =>
    match s with
    | .CRITICAL => some 1
    | _ => none
  evaluationOrder := [.CRITICAL, .HIGH]

/-- C1, counterexample: with counts CRITICAL = 5 ≥ threshold 1, a policy that
evaluates HIGH before CRITICAL still fails but its reason names HIGH (count 3,
threshold 3), not CRITICAL; and a policy that lacks a HIGH threshold yields a
configuration error rather than FAIL. The claim's universal quantification
over every policy is therefore false. -/
theorem decide_critical_cx :
    c1PolicyHighFirst.thresholds Severity.CRITICAL = some 1 ∧
    1 ≤ c1Counts Severity.CRITICAL ∧
    decide c1Counts c1PolicyHighFirst =
      .ok (Status.FAIL, some ⟨Severity.HIGH, 3, 3⟩) ∧
    c1PolicyUncovered.thresholds Severity.CRITICAL = some 1 ∧
    decide c1Counts c1PolicyUncovered =
      .error (.missingThreshold Severity.HIGH) := by
  refine ⟨rfl, by norm_num [c1Counts], rfl, rfl, rfl⟩

/-- C1 (amended): for every counts map and every policy whose thresholds
cover its evaluation order, whose evaluation order begins with CRITICAL, and
whose CRITICAL threshold is met by the CRITICAL count, `decide` returns FAIL
regardless of every other severity's count, with a reason naming CRITICAL
together with its count and threshold. -/
theorem decide_critical_gate (counts : Severity → Nat) (policy : Policy) (t : Nat)
    (hcov : ∀ s ∈ policy.evaluationOrder, (policy.thresholds s).isSome)
    (hhead : policy.evaluationOrder.head? = some Severity.CRITICAL)
    (hth : policy.thresholds Severity.CRITICAL = some t)
    (hge : t ≤ counts Severity.CRITICAL) :
    decide counts policy =
      .ok (Status.FAIL, some ⟨Severity.CRITICAL, counts Severity.CRITICAL, t⟩) := by
  obtain ⟨thresholds, order⟩ := policy
  cases order with
  | nil => simp at hhead
  | cons s rest =>
    simp at hhead hcov hth
    subst hhead
    have hfind := find_none_of_covered thresholds (Severity.CRITICAL :: rest)
      (by simpa using hcov)
    simp only [decide] at *
    rw [hfind]
    simp [firstTriggered, hth, hge]

/-- C1 witness: the amended theorem at the default policy and one CRITICAL
finding — decide fails naming CRITICAL with count 1 against threshold 1. -/
theorem decide_critical_gate_witness :
    decide c1Counts defaultPolicy =
      .ok (Status.FAIL, some ⟨Severity.CRITICAL, 5, 1⟩) :=
  decide_critical_gate c1Counts defaultPolicy 1
    (by intro s hs; fin_cases hs <;> simp [defaultPolicy]) rfl rfl
    (by norm_num [c1Counts])

/-- C2: for every counts map and every policy whose thresholds lack an entry
for some severity of the evaluation order, `decide` fails with a
`PolicyConfigError` naming a missing severity of the order; no PASS/FAIL
verdict is produced and no default threshold is substituted. -/
theorem decide_missing_threshold (counts : Severity → Nat) (policy : Policy)
    (s : Severity) (hs : s ∈ policy.evaluationOrder)
    (hmiss : policy.thresholds s = none) :
    ∃ s', s' ∈ policy.evaluationOrder ∧ policy.thresholds s' = none ∧
      decide counts policy = .error (.missingThreshold s') := by
  have hex : ∃ x, x ∈ policy.evaluationOrder ∧
      ((policy.thresholds x).isNone = true) := ⟨s, hs, by simp [hmiss]⟩
  have hsome : (policy.evaluationOrder.find?
      (fun x => (policy.thresholds x).isNone)).isSome := by
    rw [List.find?_isSome]
    simpa using hex
  obtain ⟨s', hfind⟩ := Option.isSome_iff_exists.mp hsome
  refine ⟨s', List.mem_of_find?_eq_some hfind, ?_, ?_⟩
  · have := List.find?_some hfind
    simpa [Option.isNone_iff_eq_none] using this
  · simp only [decide, hfind]

/-- C2 witness: the policy gating CRITICAL and HIGH but configuring only a
CRITICAL threshold makes decide refuse with a configuration error. -/
theorem decide_missing_threshold_witness :
    ∃ s', s' ∈ c1PolicyUncovered.evaluationOrder ∧
      c1PolicyUncovered.thresholds s' = none ∧
      decide c1Counts c1PolicyUncovered = .error (.missingThreshold s') :=
  decide_missing_threshold c1Counts c1PolicyUncovered Severity.HIGH
    (by simp [c1PolicyUncovered]) rfl

/-- The all-zero counts map of a scan producing zero findings. -/
def zeroCounts : Severity → Nat := fun _ => 0

/-- A policy with a zero CRITICAL threshold, as the repository's own
documentation configures via `critical_threshold: 0`. -/
def zeroThresholdPolicy : Policy where
  thresholds := fun s =>
    match s with
    | .CRITICAL => some 0
    | .HIGH => some 3
    | .MEDIUM => some 10
    | .LOW => some 10
  evaluationOrder := canonicalOrder

/-- C3, counterexample: with every count zero, a policy whose CRITICAL
threshold is 0 (a configuration the repository's documentation itself
proposes) makes decide FAIL, since 0 ≥ 0 — the claim's universal
quantification over every policy is therefore false. -/
theorem decide_zero_findings_cx :
    (∀ s, zeroCounts s = 0) ∧
    decide zeroCounts zeroThresholdPolicy =
      .ok (Status.FAIL, some ⟨Severity.CRITICAL, 0, 0⟩) :=
  ⟨fun _ => rfl, rfl⟩

/-- C3 (amended): for every counts map and every policy whose thresholds
cover its evaluation order, if no evaluated severity's count reaches its
configured threshold, decide returns PASS; in particular a scan producing
zero findings passes whenever every configured threshold is positive. -/
theorem decide_pass_below_thresholds (counts : Severity → Nat) (policy : Policy)
    (hcov : ∀ s ∈ policy.evaluationOrder, (policy.thresholds s).isSome)
    (hbelow : ∀ s ∈ policy.evaluationOrder, ∀ t,
      policy.thresholds s = some t → counts s < t) :
    decide counts policy = .ok (Status.PASS, none) := by
  simp only [decide, find_none_of_covered policy.thresholds policy.evaluationOrder hcov,
    firstTriggered_eq_none counts policy.thresholds policy.evaluationOrder hbelow]

/-- C3 witness: a scan with zero findings under the spec's default policy
(CRITICAL 1, HIGH 3) passes. -/
theorem decide_pass_below_thresholds_witness :
    decide zeroCounts defaultPolicy = .ok (Status.PASS, none) :=
  decide_pass_below_thresholds zeroCounts defaultPolicy
    (by intro s hs; fin_cases hs <;> simp [defaultPolicy])
    (by
      intro s hs t ht
      fin_cases hs <;> simp [defaultPolicy] at ht <;> simp [zeroCounts, ← ht])

/-- Modelled from the spec: the strict component-wise version-tuple
comparison of the Dependency Checker (§4.3) — the repository ships no
`dependencies.py` under src/, only its documentation. Version tuples are
compared lexicographically, component by component. -/
def verLt : List Nat → List Nat → Bool
  | [], [] => false
  | [], _ :: _ => true
  | _ :: _, [] => false
  | a :: as, b :: bs =>
    if a < b then true
    else if b < a then false
    else verLt as bs

/-- Modelled from the spec: the non-strict component-wise version-tuple
comparison used for the inclusive low bound of a vulnerable range (§4.3). -/
def verLe : List Nat → List Nat → Bool
  | [], _ => true
  | _ :: _, [] => false
  | a :: as, b :: bs =>
    if a < b then true
    else if b < a then false
    else verLe as bs

/-- Modelled from the spec: the Dependency Checker's range match (§4.3):
a declared version matches a vulnerable range exactly when
`low ≤ version < high`, inclusive at the low bound and exclusive at the
high bound. -/
def versionInRange (v low high : List Nat) : Bool :=
  verLe low v && verLt v high

/-- The checker's strict comparison is the mathematical lexicographic strict
order on version tuples. -/
theorem verLt_iff (a b : List Nat) :
    verLt a b = true ↔ List.Lex (· < ·) a b := by
  induction a generalizing b with
  | nil =>
    cases b with
    | nil => simp [verLt]
    | cons y ys => simpa [verLt] using List.Lex.nil
  | cons x xs ih =>
    cases b with
    | nil => simp [verLt]
    | cons y ys =>
      rcases Nat.lt_trichotomy x y with hlt | heq | hgt
      · simpa [verLt, hlt] using List.Lex.rel hlt
      · subst heq
        simp only [verLt, lt_irrefl, if_false, ih ys]
        exact List.Lex.cons_iff.symm
      · simp only [verLt, if_neg (Nat.lt_asymm hgt), if_pos hgt,
          Bool.false_eq_true, false_iff]
        intro h
        cases h with
        | cons h => exact lt_irrefl _ hgt
        | rel h => exact Nat.lt_asymm hgt h

/-- The checker's non-strict comparison is the reflexive closure of the
lexicographic strict order on version tuples. -/
theorem verLe_iff (a b : List Nat) :
    verLe a b = true ↔ (List.Lex (· < ·) a b ∨ a = b) := by
  induction a generalizing b with
  | nil =>
    cases b with
    | nil => simp [verLe]
    | cons y ys => simpa [verLe] using List.Lex.nil
  | cons x xs ih =>
    cases b with
    | nil => simp [verLe]
    | cons y ys =>
      rcases Nat.lt_trichotomy x y with hlt | heq | hgt
      · simpa [verLe, hlt] using Or.inl (List.Lex.rel hlt)
      · subst heq
        simp only [verLe, lt_irrefl, if_false, ih ys, List.cons.injEq, true_and]
        constructor
        · rintro (h | rfl)
          · exact Or.inl (List.Lex.cons h)
          · exact Or.inr rfl
        · rintro (h | rfl)
          · exact Or.inl (List.Lex.cons_iff.mp h)
          · exact Or.inr rfl
      · simp only [verLe, if_neg (Nat.lt_asymm hgt), if_pos hgt,
          Bool.false_eq_true, false_iff]
        rintro (h | h)
        · cases h with
          | cons h => exact lt_irrefl _ hgt
          | rel h => exact Nat.lt_asymm hgt h
        · cases h
          exact lt_irrefl _ hgt

/-- C4: for every declared version and vulnerable range, the Dependency
Checker's range match holds exactly when `low ≤ v < high` under
component-wise (lexicographic) version-tuple comparison — inclusive low
bound, exclusive high bound; in particular version 2.0.0 matches the range
[1.0.0, 2.5.0) while the boundary version 2.5.0 does not. -/
theorem version_range_halfopen :
    (∀ v low high : List Nat,
      versionInRange v low high = true ↔
        ((List.Lex (· < ·) low v ∨ low = v) ∧ List.Lex (· < ·) v high)) ∧
    versionInRange [2, 0, 0] [1, 0, 0] [2, 5, 0] = true ∧
    versionInRange [2, 5, 0] [1, 0, 0] [2, 5, 0] = false := by
  refine ⟨fun v low high => ?_, rfl, rfl⟩
  simp [versionInRange, Bool.and_eq_true, verLe_iff, verLt_iff]

/-- A secret-detection pattern rule (spec data model §3): rule id, regex
source, fixed severity and the optional entropy gate. Modelled from the spec:
the repository ships no `secrets.py` under src/, only its documentation. -/
structure PatternRule where
  id : String
  regex : String
  severity : Severity
  entropyMinimum : Option ℝ

/-- Modelled from the spec: the relative frequency p_c of character c in the
candidate token (§4.2), the p_i of the Shannon entropy formula. -/
noncomputable def pFreq (s : List Char) (c : Char) : ℝ :=
  (s.count c : ℝ) / (s.length : ℝ)

/-- Modelled from the spec: the Shannon entropy H = −Σ p_i·log2(p_i) over the
character-frequency distribution of the candidate token (§4.2). -/
noncomputable def shannonEntropy (s : List Char) : ℝ :=
  -∑ c ∈ s.toFinset, pFreq s c * Real.logb 2 (pFreq s c)

/-- Modelled from the spec: whether the Secret Detector emits a Finding for a
matched candidate token under a rule (§4.2): always when the rule carries no
entropy requirement, and exactly when H ≥ entropyMinimum when it does. -/
def emitsOnMatch (r : PatternRule) (token : List Char) : Prop :=
  match r.entropyMinimum with
  | none => True
  | some m => m ≤ shannonEntropy token

/-- The entropy of a token consisting of one repeated character is 0. -/
theorem shannonEntropy_replicate (c : Char) (n : ℕ) :
    shannonEntropy (List.replicate n c) = 0 := by
  rcases Nat.eq_zero_or_pos n with rfl | hn
  · simp [shannonEntropy]
  · have hne : n ≠ 0 := Nat.pos_iff_ne_zero.mp hn
    rw [shannonEntropy, List.toFinset_replicate_of_ne_zero hne,
      Finset.sum_singleton]
    have hp : pFreq (List.replicate n c) c = 1 := by
      rw [pFreq, List.count_replicate_self, List.length_replicate]
      exact div_self (Nat.cast_ne_zero.mpr hne)
    simp [hp, Real.logb_one]

/-- C5: a rule carrying an entropy minimum emits on a matched token exactly
when the token's Shannon entropy H = −Σ p_i·log2(p_i) reaches the minimum; a
rule without an entropy requirement always emits on match; a token of one
repeated character has entropy 0, so a rule with a positive entropy minimum
never emits on it. -/
theorem secret_entropy_gate :
    (∀ (r : PatternRule) (token : List Char) (m : ℝ),
      r.entropyMinimum = some m →
        (emitsOnMatch r token ↔ m ≤ shannonEntropy token)) ∧
    (∀ (r : PatternRule) (token : List Char),
      r.entropyMinimum = none → emitsOnMatch r token) ∧
    (∀ (c : Char) (n : ℕ), shannonEntropy (List.replicate n c) = 0) ∧
    (∀ (r : PatternRule) (m : ℝ) (c : Char) (n : ℕ),
      r.entropyMinimum = some m → 0 < m →
        ¬ emitsOnMatch r (List.replicate n c)) := by
  refine ⟨?_, ?_, shannonEntropy_replicate, ?_⟩
  · intro r token m hm
    simp [emitsOnMatch, hm]
  · intro r token hm
    simp [emitsOnMatch, hm]
  · intro r m c n hm hpos hemit
    simp only [emitsOnMatch, hm, shannonEntropy_replicate] at hemit
    exact absurd (lt_of_lt_of_le hpos hemit) (lt_irrefl 0)

/-- The kind of a finding (spec data model §3). -/
inductive FindingKind
  | SECRET
  | DEPENDENCY
  | DOCKERFILE
deriving DecidableEq, Repr

/-- A detected issue (spec data model §3), immutable once created. -/
structure Finding where
  kind : FindingKind
  severity : Severity
  filePath : String
  line : Nat
  ruleId : String
  message : String
deriving DecidableEq, Repr

/-- The result of one scan invocation (spec data model §3); the caller-owned
identification fields (projectId, commitRef, timestamp) are elided as they do
not affect the scanned content or the verdict. -/
structure ScanResult where
  findings : List Finding
  counts : Severity → Nat
  status : Status
  reason : Option FailReason

/-- The fatal errors of the taxonomy (§7): `ScanIOError` for an invalid root
path, and the decision-time policy misconfiguration. Non-fatal events
(skipped files, unparsable entries) are absorbed and never surface here. -/
inductive ScanError
  | ioError
  | policyError (e : PolicyConfigError)
deriving DecidableEq, Repr

/-- Modelled from the spec: the file tree under a root path as the
orchestrator sees it (§4.1) — whether the root exists and is readable, and
the readable regular text files below it as (path, content) pairs. -/
structure FileTree where
  rootExists : Bool
  rootReadable : Bool
  files : List (String × String)

/-- The deterministic ordering of the final findings sequence (§4.1):
ascending by (filePath, line, ruleId). -/
def findingLe (f g : Finding) : Bool :=
  f.filePath < g.filePath ∨
    (f.filePath = g.filePath ∧
      (f.line < g.line ∨ (f.line = g.line ∧ f.ruleId ≤ g.ruleId)))

/-- Modelled from the spec: the Scan Orchestrator
`scan(rootPath, excludeGlobs, concurrency)` (§4.1) — the repository ships no
`scanner.py` under src/, only its documentation. It fails with `ScanIOError`
when the root path does not exist or is not readable, producing no result at
all; otherwise it walks the files, skips excluded paths, dispatches each file
to the detector registry (injected as a table, §9), sorts the aggregated
findings by (filePath, line, ruleId), computes per-severity counts, and asks
the Decision Engine for the verdict. The concurrency bound never affects the
merged, sorted result (§5), so it is carried but unused. -/
def scan (tree : FileTree) (excluded : String → Bool) (_concurrency : Nat)
    (detect : String → String → List Finding) (policy : Policy) :
    Except ScanError ScanResult :=
  if tree.rootExists && tree.rootReadable then
    let visited := tree.files.filter (fun fc => !excluded fc.1)
    let findings := visited.flatMap (fun fc => detect fc.1 fc.2)
    let sorted := findings.mergeSort findingLe
    let counts := fun sev => (sorted.filter (fun f => f.severity == sev)).length
    match decide counts policy with
    | .error e => .error (.policyError e)
    | .ok (st, r) => .ok ⟨sorted, counts, st, r⟩
  else .error .ioError

/-- C6: for every file tree whose root path does not exist or is not
readable, and any exclusion globs, concurrency bound, detector table and
policy, scan fails with `ScanIOError` and produces no ScanResult, not even a
partial one — so the failure is distinguishable from every FAIL-by-policy
verdict, which is an `ok` result. -/
theorem scan_bad_root_fatal (tree : FileTree) (excluded : String → Bool)
    (concurrency : Nat) (detect : String → String → List Finding)
    (policy : Policy)
    (hbad : tree.rootExists = false ∨ tree.rootReadable = false) :
    scan tree excluded concurrency detect policy = .error ScanError.ioError ∧
    ∀ result : ScanResult,
      scan tree excluded concurrency detect policy ≠ .ok result := by
  have hcond : (tree.rootExists && tree.rootReadable) = false := by
    rcases hbad with h | h <;> simp [h]
  refine ⟨?_, ?_⟩
  · simp [scan, hcond]
  · intro result
    simp [scan, hcond]

/-- C6 witness: a root path that does not exist is fatal — scan returns
`ScanIOError` and no result, at a concrete tree, detector table and policy. -/
theorem scan_bad_root_fatal_witness :
    scan ⟨false, true, []⟩ (fun _ => false) 4 (fun _ _ => []) defaultPolicy =
      .error ScanError.ioError ∧
    ∀ result : ScanResult,
      scan ⟨false, true, []⟩ (fun _ => false) 4 (fun _ _ => []) defaultPolicy ≠
        .ok result :=
  scan_bad_root_fatal ⟨false, true, []⟩ (fun _ => false) 4 (fun _ _ => [])
    defaultPolicy (Or.inl rfl)

/-- Modelled from the spec: classification of a Dockerfile line as a CMD or
ENTRYPOINT instruction (§4.4) — the repository ships no `dockerfile.py`
under src/, only its documentation. -/
def isCmdOrEntrypoint (line : String) : Bool :=
  line.startsWith "CMD" || line.startsWith "ENTRYPOINT"

/-- Modelled from the spec: a USER directive switching away from root
(§4.4). -/
def isUserSwitch (line : String) : Bool :=
  line.startsWith "USER " && (line.drop 5).trim != "root"

/-- A Dockerfile structural rule of the injectable rule table (spec data
model §3): per-line matcher, fixed severity, description, remediation. -/
structure DockerRule where
  id : String
  matcher : String → Bool
  severity : Severity
  description : String
  remediation : String

/-- The rule id of the stateful "runs as root" rule (§4.4). -/
def rootRuleId : String := "DOCKER_RUNS_AS_ROOT"

/-- The root-execution finding emitted at the first CMD/ENTRYPOINT line. -/
def rootFinding (lineNo : Nat) : Finding where
  kind := .DOCKERFILE
  severity := .HIGH
  filePath := ""
  line := lineNo
  ruleId := rootRuleId
  message := "Container executes its command as root"

/-- Modelled from the spec: the single forward pass of the Dockerfile Rule
Engine (§4.4), carrying its one piece of state — whether a USER directive
switching away from root has been seen, and whether the first CMD/ENTRYPOINT
has already been passed (the root rule fires only there). Table rules are
evaluated per line by their matchers. -/
def dockerCheckAux (rules : List DockerRule) (userSeen cmdSeen : Bool)
    (lineNo : Nat) : List String → List Finding
  | [] => []
  | l :: rest =>
    ((rules.filter (fun r => r.matcher l)).map (fun r =>
        ({ kind := .DOCKERFILE, severity := r.severity, filePath := "",
           line := lineNo, ruleId := r.id, message := r.description } : Finding))) ++
    (if isCmdOrEntrypoint l && !cmdSeen && !userSeen then [rootFinding lineNo]
     else []) ++
    dockerCheckAux rules (userSeen || isUserSwitch l)
      (cmdSeen || isCmdOrEntrypoint l) (lineNo + 1) rest

/-- The one end-of-file finding for a Dockerfile with no HEALTHCHECK
anywhere (§4.4). -/
def healthcheckFinding : Finding where
  kind := .DOCKERFILE
  severity := .LOW
  filePath := ""
  line := 0
  ruleId := "DOCKER_NO_HEALTHCHECK"
  message := "Dockerfile has no HEALTHCHECK instruction"

/-- Modelled from the spec: `check(content, rules)` of the Dockerfile Rule
Engine (§4.4): the stateful single pass over the lines, plus the one
end-of-file finding when no HEALTHCHECK instruction occurs in the file. -/
def dockerCheck (lines : List String) (rules : List DockerRule) : List Finding :=
  dockerCheckAux rules false false 1 lines ++
    (if lines.all (fun l => !l.startsWith "HEALTHCHECK") then [healthcheckFinding]
     else [])

/-- The index of the first CMD/ENTRYPOINT line of a Dockerfile (§4.4). -/
def firstCmdIndex : List String → Option Nat
  | [] => none
  | l :: rest =>
    if isCmdOrEntrypoint l then some 0
    else (firstCmdIndex rest).map (· + 1)

/-- The root-execution findings of the forward pass, characterized: none
once the first CMD/ENTRYPOINT is behind (cmdSeen) or after a USER switch
(userSeen); else exactly one at the first CMD/ENTRYPOINT reached with no
prior USER switch. -/
theorem dockerCheckAux_root (rules : List DockerRule)
    (hids : ∀ r ∈ rules, r.id ≠ rootRuleId) (ls : List String) :
    ∀ (u c : Bool) (n : Nat),
      (dockerCheckAux rules u c n ls).filter (fun f => f.ruleId == rootRuleId) =
        if c then []
        else
          match firstCmdIndex ls with
          | none => []
          | some i =>
            if u || (ls.take i).any isUserSwitch then []
            else [rootFinding (n + i)] := by
  induction ls with
  | nil =>
    intro u c n
    cases c <;> simp [dockerCheckAux, firstCmdIndex]
  | cons l rest ih =>
    intro u c n
    have htab : ((rules.filter (fun r => r.matcher l)).map (fun r =>
        ({ kind := .DOCKERFILE, severity := r.severity, filePath := "",
           line := n, ruleId := r.id, message := r.description } : Finding))).filter
          (fun f => f.ruleId == rootRuleId) = [] := by
      rw [List.filter_eq_nil_iff]
      intro f hf
      obtain ⟨r, hr, rfl⟩ := List.mem_map.mp hf
      simpa using hids r (List.mem_of_mem_filter hr)
    simp only [dockerCheckAux, List.filter_append, htab, List.nil_append]
    cases hcmd : isCmdOrEntrypoint l with
    | true =>
      rw [ih (u || isUserSwitch l) (c || true) (n + 1)]
      simp only [firstCmdIndex, hcmd, if_pos rfl]
      cases c <;> cases u <;> simp [rootFinding]
    | false =>
      rw [ih (u || isUserSwitch l) (c || false) (n + 1)]
      simp only [firstCmdIndex, hcmd, Bool.or_false, Bool.false_and,
        Bool.and_false, if_neg, Bool.false_eq_true, not_false_eq_true]
      cases hfi : firstCmdIndex rest with
      | none => cases c <;> simp
      | some i =>
        cases c with
        | true => simp
        | false =>
          simp only [Option.map_some, if_false, List.take_succ_cons,
            List.any_cons, Bool.if_false_left]
          have harr : n + 1 + i = n + (i + 1) := by omega
          rw [harr]
          cases hu : u <;> cases hul : isUserSwitch l <;>
            cases hrest : (rest.take i).any isUserSwitch <;> simp [hul, hrest]

/-- C7: for every Dockerfile and every rule table whose ids do not collide
with the root rule's id, the "runs as root" rule emits at most one finding
per file: exactly one at the first CMD/ENTRYPOINT line when no USER
directive switching away from root precedes it, and none otherwise — in
particular never a second root-execution finding at a later
CMD/ENTRYPOINT. -/
theorem docker_root_rule_once (lines : List String) (rules : List DockerRule)
    (hids : ∀ r ∈ rules, r.id ≠ rootRuleId) :
    ((dockerCheck lines rules).filter (fun f => f.ruleId == rootRuleId) =
      match firstCmdIndex lines with
      | none => []
      | some i =>
        if (lines.take i).any isUserSwitch then [] else [rootFinding (1 + i)]) ∧
    ((dockerCheck lines rules).filter (fun f => f.ruleId == rootRuleId)).length ≤ 1 := by
  have hhealth :
      ((if lines.all (fun l => !l.startsWith "HEALTHCHECK") then [healthcheckFinding]
        else []) : List Finding).filter (fun f => f.ruleId == rootRuleId) = [] := by
    cases lines.all (fun l => !l.startsWith "HEALTHCHECK") <;>
      simp [healthcheckFinding, rootRuleId]
  have hmain := dockerCheckAux_root rules hids lines false false 1
  have hfilter : (dockerCheck lines rules).filter (fun f => f.ruleId == rootRuleId) =
      match firstCmdIndex lines with
      | none => []
      | some i =>
        if (lines.take i).any isUserSwitch then [] else [rootFinding (1 + i)] := by
    rw [dockerCheck, List.filter_append, hhealth, List.append_nil, hmain]
    simp only [Bool.false_eq_true, if_false, Bool.false_or]
  refine ⟨hfilter, ?_⟩
  rw [hfilter]
  cases hfi : firstCmdIndex lines with
  | none => simp
  | some i => cases hc : (lines.take i).any isUserSwitch <;> simp [hc]

/-- C7 witness: the Dockerfile of the spec's scenario C — a latest-tag FROM
and a CMD with no USER directive — yields exactly one root-execution
finding, located at the CMD line. -/
theorem docker_root_rule_once_witness :
    ((dockerCheck ["FROM python:latest", "CMD python app.py"] []).filter
        (fun f => f.ruleId == rootRuleId) =
      match firstCmdIndex ["FROM python:latest", "CMD python app.py"] with
      | none => []
      | some i =>
        if ((["FROM python:latest", "CMD python app.py"].take i).any isUserSwitch)
        then [] else [rootFinding (1 + i)]) ∧
    ((dockerCheck ["FROM python:latest", "CMD python app.py"] []).filter
        (fun f => f.ruleId == rootRuleId)).length ≤ 1 :=
  docker_root_rule_once ["FROM python:latest", "CMD python app.py"] []
    (by simp)

/-- C8: decide is a pure function of its (counts, policy) arguments alone:
two calls whose policies are equal and whose counts agree on every severity
of the evaluation order return identical (status, reason) results — there is
no dependence on I/O, shared mutable state, or even on counts of severities
the policy does not evaluate. -/
theorem decide_deterministic (c₁ c₂ : Severity → Nat) (p₁ p₂ : Policy)
    (hc : ∀ s ∈ p₁.evaluationOrder, c₁ s = c₂ s) (hp : p₁ = p₂) :
    decide c₁ p₁ = decide c₂ p₂ := by
  subst hp
  simp only [decide, firstTriggered_congr c₁ c₂ p₁.thresholds p₁.evaluationOrder hc]

/-- A counts map extensionally but not syntactically equal to `c1Counts`. -/
def c1Counts' : Severity → Nat := fun s =>
  match s with
  | .CRITICAL => 2 + 3
  | .HIGH => 3
  | .MEDIUM => 0
  | .LOW => 0

/-- C8 witness: two syntactically different counts maps that agree on the
evaluated severities give identical decisions under the default policy. -/
theorem decide_deterministic_witness :
    decide c1Counts defaultPolicy = decide c1Counts' defaultPolicy :=
  decide_deterministic c1Counts c1Counts' defaultPolicy defaultPolicy
    (by intro s hs; fin_cases hs <;> rfl) rfl

/-- The `PipelineGuardian` class of src/src/index.ts: its two private string
fields, set by the constructor. -/
structure PipelineGuardian where
  name : String
  version : String
deriving DecidableEq, Repr

namespace PipelineGuardian

/-- `initialize()` of src/src/index.ts: logs two banner lines and returns
void — embedded as the unchanged instance paired with the console output. -/
def initializeGuardian (g : PipelineGuardian) : PipelineGuardian × List String :=
  (g, ["🛡️  " ++ g.name ++ " v" ++ g.version ++ " initialized",
       "Monitoring CI/CD pipeline security..."])

/-- `scanPipeline()` of src/src/index.ts: logs four fixed progress lines and
returns void — embedded as the unchanged instance paired with the output. -/
def scanPipeline (g : PipelineGuardian) : PipelineGuardian × List String :=
  (g, ["✓ Scanning pipeline configuration",
       "✓ Checking secret management",
       "✓ Validating security policies",
       "✓ Pipeline security check complete"])

/-- `run()` of src/src/index.ts: calls `this.initialize()`, then
`this.scanPipeline()`, then logs a closing line, returning void. -/
def run (g : PipelineGuardian) : PipelineGuardian × List String :=
  let r1 := initializeGuardian g
  let r2 := scanPipeline r1.1
  (r2.1, r1.2 ++ r2.2 ++ ["\n✅ Secure CI/CD Pipeline Guardian is running"])

/-- C9: the private fields name and version are assigned only in the
constructor — initialize, scanPipeline and run each return the instance
unchanged — and run invokes initialize first and scanPipeline second on that
unchanged instance: its state is the state scanPipeline returns for the
instance initialize returned, and its output is initialize's output followed
by scanPipeline's output followed by the closing line. -/
theorem guardian_frame (g : PipelineGuardian) :
    (initializeGuardian g).1 = g ∧ (scanPipeline g).1 = g ∧ (run g).1 = g ∧
    run g = ((scanPipeline (initializeGuardian g).1).1,
      (initializeGuardian g).2 ++ (scanPipeline (initializeGuardian g).1).2 ++
        ["\n✅ Secure CI/CD Pipeline Guardian is running"]) :=
  ⟨rfl, rfl, rfl, rfl⟩

/-- C10: for every name and version, constructing the guardian and calling
initialize, scanPipeline or run terminates normally with exactly the logged
console lines as its only effect: the embedding is a total non-fallible
function (the TypeScript bodies are straight-line console.log calls that
cannot throw), every method leaves the instance unchanged and returns void —
no findings sequence, no ScanResult, no PASS/FAIL verdict, no error for any
input. -/
theorem guardian_total_void (name version : String) :
    initializeGuardian ⟨name, version⟩ =
      (⟨name, version⟩,
       ["🛡️  " ++ name ++ " v" ++ version ++ " initialized",
        "Monitoring CI/CD pipeline security..."]) ∧
    scanPipeline ⟨name, version⟩ =
      (⟨name, version⟩,
       ["✓ Scanning pipeline configuration",
        "✓ Checking secret management",
        "✓ Validating security policies",
        "✓ Pipeline security check complete"]) ∧
    run ⟨name, version⟩ =
      (⟨name, version⟩,
       ["🛡️  " ++ name ++ " v" ++ version ++ " initialized",
        "Monitoring CI/CD pipeline security...",
        "✓ Scanning pipeline configuration",
        "✓ Checking secret management",
        "✓ Validating security policies",
        "✓ Pipeline security check complete",
        "\n✅ Secure CI/CD Pipeline Guardian is running"]) :=
  ⟨rfl, rfl, rfl⟩

end PipelineGuardian

end Guardian
